import Mathlib

/-!
Shallow embedding of the airline booking backend (airport/payments apps):
the data model (`models.py`), the order-creation pipeline
(`serializers.py`), the seats-left annotation (`views.py`), the checkout
session opening (`payments/sessions.py`) and the payment confirmation
endpoint (`payments/views.py`), together with theorems settling the
spec's claims about them.
-/

/-- Equality of fallible results is decidable when both components are. -/
instance {ε α : Type} [DecidableEq ε] [DecidableEq α] :
    DecidableEq (Except ε α) := fun x y =>
  match x, y with
  | .ok a, .ok b => decidable_of_iff (a = b) (by simp)
  | .error a, .error b => decidable_of_iff (a = b) (by simp)
  | .ok _, .error _ => isFalse (by simp)
  | .error _, .ok _ => isFalse (by simp)

namespace AirportApi

/-! ### Data model (airport/models.py, payments/models.py) -/

/-- Embeds `UppercaseField.get_prep_value`: the value actually written to
storage is the uppercase form of the supplied value. A ticket's seat is a
single character (`seat = UppercaseField(max_length=1)`), so the value is a
`Char`. -/
def get_prep_value (c : Char) : Char := c.toUpper

/-- Embeds `Aircraft`: the two fields the booking core reads
(`rows = models.IntegerField()`, `seats_in_row = models.IntegerField()`). -/
structure Aircraft where
  rows : Int
  seats_in_row : Int
deriving DecidableEq, Repr

/-- Embeds `Aircraft.capacity` (`return self.rows * self.seats_in_row`). -/
def capacity (a : Aircraft) : Int := a.rows * a.seats_in_row

/-- Embeds `Route`: the field the payment core reads (`distance`). -/
structure Route where
  distance : Int
deriving DecidableEq, Repr

/-- Embeds `Flight`: its primary key and the referenced aircraft and route
(the other fields — airline, crew, times, status — play no part in any
claim). -/
structure Flight where
  id : Nat
  aircraft : Aircraft
  route : Route
deriving DecidableEq, Repr

/-- Embeds `Order.PaidChoices` (`PAID = "paid"`, `NOT_PAID = "not paid"`). -/
inductive OrderStatus where
  | paid
  | notPaid
deriving DecidableEq, Repr

/-- Embeds an `Order` row: primary key, owning user, status
(default `NOT_PAID` on creation). -/
structure OrderRow where
  id : Nat
  userId : Nat
  status : OrderStatus
deriving DecidableEq, Repr

/-- Embeds a committed `Ticket` row: `row = IntegerField()`,
`seat = UppercaseField(max_length=1)` (stored uppercase), and the two
foreign keys. -/
structure TicketRow where
  row : Int
  seat : Char
  flightId : Nat
  orderId : Nat
deriving DecidableEq, Repr

/-- Embeds a `Payment` row (`payments/models.py`): status is a raw stored
string because `create_payment` writes the literal `"PENDING"`, which is
not among the model's declared choices (`"paid"`, `"not paid"`) —
`objects.create` bypasses choice validation. -/
structure PaymentRow where
  id : Nat
  status : String
  orderId : Nat
  session_url : String
  session_id : String
  amount : ℚ
deriving DecidableEq, Repr

/-- The persistent store: reference data (flights with their aircraft and
routes) plus the three mutable tables the claims are about. -/
structure Store where
  flights : List Flight
  orders : List OrderRow
  tickets : List TicketRow
  payments : List PaymentRow
  nextOrderId : Nat
  nextPaymentId : Nat
deriving DecidableEq, Repr

/-- A store holding only reference data: no orders, tickets or payments
have been created yet. -/
def initStore (flights : List Flight) : Store :=
  { flights := flights, orders := [], tickets := [], payments := [],
    nextOrderId := 0, nextPaymentId := 0 }

/-- Foreign-key resolution of a flight id (DRF `PrimaryKeyRelatedField`). -/
def findFlight (s : Store) (flightId : Nat) : Option Flight :=
  s.flights.find? (fun f => f.id == flightId)

/-! ### Seat/row validation (Ticket.validate_seat_row) -/

/-- The field-level detail dict raised by `Ticket.validate_seat_row`. -/
structure SeatRowError where
  seat_msg : String
  row_msg : String
deriving DecidableEq, Repr

/-- Embeds `Ticket.validate_seat_row`: computes
`max_seat_chr = chr(seats_in_row + 64)` and raises (returns `some` detail)
unless `("A" <= seat <= max_seat_chr) and (1 <= row <= num_rows)`. -/
def validate_seat_row (seat : Char) (seats_in_row : Int) (row : Int)
    (num_rows : Int) : Option SeatRowError :=
  let max_seat_chr : Char := Char.ofNat (seats_in_row + 64).toNat
  if (('A' ≤ seat ∧ seat ≤ max_seat_chr) ∧ (1 ≤ row ∧ row ≤ num_rows)) then
    none
  else
    some { seat_msg := "seat must be in range from A to " ++ max_seat_chr.toString,
           row_msg := "row must be in range from 1 to " ++ toString num_rows }

/-! ### Order creation (OrderSerializer / TicketSerializer) -/

/-- One element of the `tickets` list in a CreateOrder request:
`(flight_id, row, seat)`. -/
structure TicketRequest where
  flightId : Nat
  row : Int
  seat : Char
deriving DecidableEq, Repr

/-- The failures CreateOrder can surface: the DRF validation errors
(empty ticket list, unresolvable flight id, seat/row out of range,
mixed-flight order) and the storage-layer `IntegrityError` from the
`unique_together = ("seat", "row", "flight")` constraint, which the spec's
taxonomy names `ConflictError("seat-already-booked")`. -/
inductive BookingError where
  | emptyTickets
  | unknownFlight (flightId : Nat)
  | seatOutOfRange (detail : SeatRowError)
  | mixedFlightOrder
  | seatAlreadyBooked
deriving DecidableEq, Repr

/-- Validation errors (DRF `ValidationError`) as opposed to the storage
conflict. -/
def BookingError.isValidation : BookingError → Bool
  | .seatAlreadyBooked => false
  | _ => true

/-- Embeds `TicketSerializer.validate` together with the field-level
resolution of the flight id: resolves the flight, then runs
`Ticket.validate_seat_row` against its aircraft. -/
def ticketValidate (s : Store) (t : TicketRequest) : Option BookingError :=
  match findFlight s t.flightId with
  | none => some (.unknownFlight t.flightId)
  | some f =>
    match validate_seat_row t.seat f.aircraft.seats_in_row t.row f.aircraft.rows with
    | some d => some (.seatOutOfRange d)
    | none => none

/-- Embeds `OrderSerializer.validate`: collects the set of resolved flight
ids and rejects the order when more than one is present. -/
def orderValidate (reqs : List TicketRequest) : Option BookingError :=
  if 1 < ((reqs.map (fun r => r.flightId)).dedup).length then
    some .mixedFlightOrder
  else
    none

/-- The row the storage layer would commit for a request: the seat passes
through `UppercaseField.get_prep_value`. -/
def storedTicket (orderId : Nat) (r : TicketRequest) : TicketRow :=
  { row := r.row, seat := get_prep_value r.seat, flightId := r.flightId,
    orderId := orderId }

/-- The `unique_together = ("seat", "row", "flight")` constraint check: a
committed row with the same triple already exists. -/
def conflicts (tickets : List TicketRow) (t : TicketRow) : Bool :=
  tickets.any (fun u =>
    u.flightId == t.flightId && u.row == t.row && u.seat == t.seat)

/-- Embeds the loop in `OrderSerializer.create`: each
`Ticket.objects.create` either violates the uniqueness constraint
(`IntegrityError`, aborting the transaction) or commits the prepared row. -/
def insertTickets (orderId : Nat) (tickets : List TicketRow) :
    List TicketRequest → Except BookingError (List TicketRow)
  | [] => .ok tickets
  | r :: rest =>
    if conflicts tickets (storedTicket orderId r) then
      .error .seatAlreadyBooked
    else insertTickets orderId (tickets ++ [storedTicket orderId r]) rest

/-- Embeds the CreateOrder operation end to end: DRF `is_valid`
(`allow_empty=False` on the nested tickets, per-ticket validation, then
`OrderSerializer.validate`) followed by `OrderSerializer.create` inside
`transaction.atomic()` — on any error nothing persists. -/
def createOrder (s : Store) (userId : Nat) (reqs : List TicketRequest) :
    Except BookingError Store :=
  if reqs.isEmpty then .error .emptyTickets
  else
    match reqs.findSome? (ticketValidate s) with
    | some e => .error e
    | none =>
      match orderValidate reqs with
      | some e => .error e
      | none =>
        match insertTickets s.nextOrderId s.tickets reqs with
        | .error e => .error e
        | .ok newTickets =>
          .ok { s with
                orders := s.orders ++
                  [{ id := s.nextOrderId, userId := userId,
                     status := .notPaid }],
                tickets := newTickets,
                nextOrderId := s.nextOrderId + 1 }

/-! ### Checkout session opening (payments/sessions.py) -/

/-- Failures of `create_stripe_session` visible in the source: the order
has no ticket (`order.route_name` dereferences `tickets.first()`, which is
`None`) or the first ticket's flight does not resolve. -/
inductive CheckoutError where
  | noTickets
  | unknownFlight
deriving DecidableEq, Repr

/-- Embeds the external provider call `stripe.checkout.Session.create`:
one line item with `quantity = 1` and `unit_amount = amount`, so the
session's `amount_total` is `amount * 1`; the provider mints the session
id and url. -/
structure StripeSession where
  id : String
  url : String
  amount_total : Int
deriving DecidableEq, Repr

/-- The provider's response for a requested amount, given the externally
minted id and url. -/
def sessionCreate (amount : Int) (sid surl : String) : StripeSession :=
  { id := sid, url := surl, amount_total := amount * 1 }

/-- The tickets of an order (`order.tickets`), in insertion (pk) order. -/
def orderTickets (s : Store) (orderId : Nat) : List TicketRow :=
  s.tickets.filter (fun t => t.orderId == orderId)

/-- Embeds `create_payment`: one `Payment.objects.create` with
`status="PENDING"`, the session's url and id, and
`amount = session.amount_total / 100` (Python true division, exact here
over `ℚ`). -/
def create_payment (s : Store) (orderId : Nat) (session : StripeSession) :
    Store :=
  { s with
    payments := s.payments ++
      [{ id := s.nextPaymentId, status := "PENDING", orderId := orderId,
         session_url := session.url, session_id := session.id,
         amount := (session.amount_total : ℚ) / 100 }],
    nextPaymentId := s.nextPaymentId + 1 }

/-- Embeds `create_stripe_session` (the spec's OpenCheckout): computes
`amount = order.route_name.distance * order.tickets.count() * 10`
(`order.route_name` is the first ticket's flight's route), requests the
provider session, then calls `create_payment`. `sid`/`surl` stand for the
id and url the external provider returns. -/
def create_stripe_session (s : Store) (orderId : Nat) (sid surl : String) :
    Except CheckoutError Store :=
  match orderTickets s orderId with
  | [] => .error .noTickets
  | t :: _ =>
    match findFlight s t.flightId with
    | none => .error .unknownFlight
    | some f =>
      let amount := f.route.distance * (orderTickets s orderId).length * 10
      let session := sessionCreate amount sid surl
      .ok (create_payment s orderId session)

/-- The per-distance-per-ticket rate in the units of the stored amount:
the literal `10` in `create_stripe_session` is the rate in the provider's
minor currency unit, and the stored amount is `amount_total / 100`, so the
rate per unit distance per ticket of the stored amount is `10 / 100`. -/
def unit_rate : ℚ := 10 / 100

/-! ### Payment confirmation (payments/views.py) -/

/-- Failures of `payment_success`: `Payment.objects.get` raises
`DoesNotExist` on a lookup miss (the spec's `NotFoundError`) or
`MultipleObjectsReturned` when several rows match; the serializer rejects a
status outside the model's choices. -/
inductive PaymentError where
  | doesNotExist
  | multipleObjectsReturned
  | invalidStatus
deriving DecidableEq, Repr

/-- Embeds `Payment.objects.get(session_id=session)`: exactly one matching
row or an error. -/
def getPayment (s : Store) (sessionId : String) :
    Except PaymentError PaymentRow :=
  match s.payments.filter (fun p => p.session_id == sessionId) with
  | [] => .error .doesNotExist
  | [p] => .ok p
  | _ => .error .multipleObjectsReturned

/-- Status choices of the `Payment` model (`PAID = "paid"`,
`NOT_PAID = "not paid"`). -/
def payment_status_choices : List String := ["paid", "not paid"]

/-- Modelled from the spec: `PaymentSerializer` (src/payments/serializers.py
is not among the sources; only `payment_success` in views.py calls it).
Per the spec, ConfirmPayment "Sets Payment.status = Paid": the partial
update `data={"status": "paid"}` validates the status against the model's
choices and writes it to the row. This is the first of the two separate
commits of `payment_success`. -/
def paymentSerializerSave (s : Store) (paymentId : Nat) (newStatus : String) :
    Except PaymentError Store :=
  if newStatus ∈ payment_status_choices then
    .ok { s with
          payments := s.payments.map (fun p =>
            if p.id == paymentId then { p with status := newStatus } else p) }
  else .error .invalidStatus

/-- Embeds `order.status = "paid"; order.save()`: the second commit of
`payment_success`. -/
def setOrderPaid (s : Store) (orderId : Nat) : Store :=
  { s with
    orders := s.orders.map (fun o =>
      if o.id == orderId then { o with status := .paid } else o) }

/-- Embeds `payment_success` (the spec's ConfirmPayment): look up the
payment by session id, save it with status `"paid"` through the
serializer, then set the owning order's status to `"paid"` and save it.
The two saves are separate commits — no transaction wraps them. -/
def payment_success (s : Store) (sessionId : String) :
    Except PaymentError Store := do
  let payment ← getPayment s sessionId
  let s1 ← paymentSerializerSave s payment.id "paid"
  return setOrderPaid s1 payment.orderId

/-- The store as durably committed after `payment_success`'s first save
(the serializer write) and before the order write: the state an observer
or a crash sees between the two commits. -/
def payment_success_afterFirstWrite (s : Store) (sessionId : String) :
    Except PaymentError Store := do
  let payment ← getPayment s sessionId
  paymentSerializerSave s payment.id "paid"

/-! ### Operations and reachable states -/

/-- The state-mutating operations of the system. -/
inductive Op where
  | opCreateOrder (userId : Nat) (reqs : List TicketRequest)
  | opOpenCheckout (orderId : Nat) (sid surl : String)
  | opConfirmPayment (sessionId : String)
deriving DecidableEq, Repr

/-- The store after running an operation: on any failure the transaction
semantics leave the store unchanged. -/
def applyOp (s : Store) : Op → Store
  | .opCreateOrder userId reqs =>
    match createOrder s userId reqs with
    | .ok s' => s'
    | .error _ => s
  | .opOpenCheckout orderId sid surl =>
    match create_stripe_session s orderId sid surl with
    | .ok s' => s'
    | .error _ => s
  | .opConfirmPayment sessionId =>
    match payment_success s sessionId with
    | .ok s' => s'
    | .error _ => s

/-- States reachable from a fresh store (any reference data, no booking
rows) by running operations. -/
inductive Reachable : Store → Prop where
  | init (flights : List Flight) : Reachable (initStore flights)
  | step (s : Store) (op : Op) : Reachable s → Reachable (applyOp s op)

/-- The booking key protected by
`unique_together = ("seat", "row", "flight")`. -/
def ticketKey (t : TicketRow) : Nat × Int × Char := (t.flightId, t.row, t.seat)

/-- P1: no two committed tickets share an identical (flight, row, seat)
triple. -/
def uniqueSeats (tickets : List TicketRow) : Prop :=
  (tickets.map ticketKey).Nodup

instance (tickets : List TicketRow) : Decidable (uniqueSeats tickets) := by
  unfold uniqueSeats
  infer_instance

/-! ### Derived seats-left (FlightViewSet.queryset) -/

/-- Embeds the `seats_left` annotation of `FlightViewSet.queryset`:
`F("aircraft__rows") * F("aircraft__seats_in_row") - Count("tickets")`. -/
def seats_left (s : Store) (f : Flight) : Int :=
  f.aircraft.rows * f.aircraft.seats_in_row -
    (s.tickets.filter (fun t => t.flightId == f.id)).length

/-- The number of committed `Ticket` rows referencing a flight. -/
def ticketCount (s : Store) (flightId : Nat) : Nat :=
  (s.tickets.filter (fun t => t.flightId == flightId)).length

/-! ### Failure-shape predicates -/

/-- The operation failed (no store was committed). -/
def opFails {ε α : Type} : Except ε α → Prop
  | .error _ => True
  | .ok _ => False

instance {ε α : Type} (r : Except ε α) : Decidable (opFails r) :=
  match r with
  | .error _ => isTrue trivial
  | .ok _ => isFalse id

/-- The operation failed with a DRF `ValidationError`. -/
def failsWithValidation (r : Except BookingError Store) : Prop :=
  match r with
  | .error e => e.isValidation = true
  | .ok _ => False

instance (r : Except BookingError Store) : Decidable (failsWithValidation r) :=
  match r with
  | .error _ => inferInstanceAs (Decidable (_ = true))
  | .ok _ => isFalse id

/-- The operation failed with the seat/row bounds `ValidationError`,
carrying the field-level detail dict. -/
def failsWithSeatOutOfRange (r : Except BookingError Store) : Prop :=
  match r with
  | .error (.seatOutOfRange _) => True
  | _ => False

instance (r : Except BookingError Store) :
    Decidable (failsWithSeatOutOfRange r) :=
  match r with
  | .error (.seatOutOfRange _) => isTrue trivial
  | .error .emptyTickets => isFalse id
  | .error (.unknownFlight _) => isFalse id
  | .error .mixedFlightOrder => isFalse id
  | .error .seatAlreadyBooked => isFalse id
  | .ok _ => isFalse id

/-! ### Concrete data for witnesses and counterexamples -/

/-- A flight on an aircraft with 2 rows and 3 seats per row (valid seats
A–C), over a route of distance 100. -/
def wFlight : Flight :=
  { id := 1, aircraft := { rows := 2, seats_in_row := 3 },
    route := { distance := 100 } }

/-- A pending payment for order 0 under session `"sess1"`. -/
def wPayment : PaymentRow :=
  { id := 0, status := "PENDING", orderId := 0, session_url := "u1",
    session_id := "sess1", amount := 10 }

/-- A store with one unpaid order holding seat 1A of `wFlight` and one
pending payment. -/
def wStore : Store :=
  { flights := [wFlight],
    orders := [{ id := 0, userId := 0, status := .notPaid }],
    tickets := [{ row := 1, seat := 'A', flightId := 1, orderId := 0 }],
    payments := [wPayment],
    nextOrderId := 1, nextPaymentId := 1 }

/-- `wStore` after both confirmation writes have committed. -/
def wStorePaid : Store :=
  { wStore with
    orders := [{ id := 0, userId := 0, status := .paid }],
    payments := [{ wPayment with status := "paid" }] }

/-- `wStore` after only the first confirmation write (the payment save)
has committed: the payment is paid but the order is still unpaid. -/
def wStoreMid : Store :=
  { wStore with payments := [{ wPayment with status := "paid" }] }

/-! ### Supporting lemmas -/

lemma applyOp_createOrder_error {s : Store} {userId : Nat}
    {reqs : List TicketRequest} {e : BookingError}
    (h : createOrder s userId reqs = .error e) :
    applyOp s (.opCreateOrder userId reqs) = s := by
  simp [applyOp, h]

lemma ticketValidate_isValidation {s : Store} {r : TicketRequest}
    {e : BookingError} (h : ticketValidate s r = some e) :
    e.isValidation = true := by
  unfold ticketValidate at h
  split at h
  · injection h with h
    subst h
    rfl
  · split at h
    · injection h with h
      subst h
      rfl
    · exact absurd h (by simp)

lemma ticketValidate_of_resolved {s : Store} {r : TicketRequest}
    {e : BookingError} (hf : (findFlight s r.flightId).isSome = true)
    (h : ticketValidate s r = some e) :
    ∃ d, e = .seatOutOfRange d := by
  unfold ticketValidate at h
  split at h
  · rename_i hnone
    rw [hnone] at hf
    simp at hf
  · split at h
    · injection h with h
      exact ⟨_, h.symm⟩
    · exact absurd h (by simp)

lemma createOrder_ok {s s' : Store} {userId : Nat} {reqs : List TicketRequest}
    (h : createOrder s userId reqs = .ok s') :
    reqs.findSome? (ticketValidate s) = none ∧
    orderValidate reqs = none ∧
    ∃ newTickets,
      insertTickets s.nextOrderId s.tickets reqs = .ok newTickets ∧
      s' = { s with
             orders := s.orders ++
               [{ id := s.nextOrderId, userId := userId, status := .notPaid }],
             tickets := newTickets,
             nextOrderId := s.nextOrderId + 1 } := by
  unfold createOrder at h
  split at h
  · exact absurd h (by simp)
  · split at h
    · exact absurd h (by simp)
    · split at h
      · exact absurd h (by simp)
      · split at h
        · exact absurd h (by simp)
        · injection h with h
          refine ⟨?_, ?_, _, ?_, h.symm⟩ <;> assumption

lemma conflicts_iff {tickets : List TicketRow} {t : TicketRow} :
    conflicts tickets t = true ↔ ticketKey t ∈ tickets.map ticketKey := by
  simp only [conflicts, List.any_eq_true, List.mem_map, ticketKey,
    Bool.and_eq_true, beq_iff_eq, Prod.mk.injEq]
  constructor
  · rintro ⟨u, hu, ⟨h1, h2⟩, h3⟩
    exact ⟨u, hu, h1, h2, h3⟩
  · rintro ⟨u, hu, h1, h2, h3⟩
    exact ⟨u, hu, ⟨h1, h2⟩, h3⟩

lemma conflicts_append {l₁ l₂ : List TicketRow} {t : TicketRow} :
    conflicts (l₁ ++ l₂) t = (conflicts l₁ t || conflicts l₂ t) := by
  simp [conflicts, List.any_append]

lemma insertTickets_ok_nodup {oid : Nat} :
    ∀ {reqs : List TicketRequest} {acc out : List TicketRow},
      uniqueSeats acc → insertTickets oid acc reqs = .ok out → uniqueSeats out
  | [], acc, out => fun ha h => by
      unfold insertTickets at h
      injection h with h
      exact h ▸ ha
  | r :: rest, acc, out => fun ha h => by
      unfold insertTickets at h
      split at h
      · exact absurd h (by simp)
      · rename_i hc
        refine insertTickets_ok_nodup ?_ h
        have hnot : ticketKey (storedTicket oid r) ∉ acc.map ticketKey := by
          intro hmem
          rw [← conflicts_iff] at hmem
          simp [hmem] at hc
        unfold uniqueSeats at ha ⊢
        rw [List.map_append]
        exact ha.append (List.nodup_singleton _)
          (List.disjoint_singleton.2 (by simpa using hnot))

lemma create_stripe_session_ok_tickets {s s' : Store} {oid : Nat}
    {sid surl : String}
    (h : create_stripe_session s oid sid surl = .ok s') :
    s'.tickets = s.tickets := by
  unfold create_stripe_session at h
  split at h
  · exact absurd h (by simp)
  · split at h
    · exact absurd h (by simp)
    · injection h with h
      subst h
      rfl

lemma getPayment_ok {s : Store} {sid : String} {p : PaymentRow}
    (h : getPayment s sid = .ok p) :
    s.payments.filter (fun q => q.session_id == sid) = [p] := by
  unfold getPayment at h
  split at h
  · exact absurd h (by simp)
  · rename_i heq
    injection h with h
    subst h
    exact heq
  · exact absurd h (by simp)

lemma payment_success_ok_parts {s s' : Store} {sid : String}
    (h : payment_success s sid = .ok s') :
    ∃ p, getPayment s sid = .ok p ∧
      s' = setOrderPaid
        { s with payments := s.payments.map (fun q =>
            if q.id == p.id then { q with status := "paid" } else q) }
        p.orderId := by
  unfold payment_success at h
  cases hg : getPayment s sid with
  | error e =>
    rw [hg] at h
    exact absurd h (by simp [Bind.bind, Except.bind])
  | ok p =>
    rw [hg] at h
    simp only [Bind.bind, Except.bind, paymentSerializerSave,
      payment_status_choices] at h
    rw [if_pos (by simp)] at h
    injection h with h
    exact ⟨p, rfl, h.symm⟩

lemma isEmpty_false_of_mem {α : Type} {l : List α} {a : α} (h : a ∈ l) :
    l.isEmpty = false := by
  cases l
  · cases h
  · rfl

lemma findSome?_ne_none_of_mem {α β : Type} {l : List α} {f : α → Option β}
    {a : α} {b : β} (ha : a ∈ l) (hb : f a = some b) :
    ∃ c, l.findSome? f = some c := by
  cases hfs : l.findSome? f with
  | some c => exact ⟨c, rfl⟩
  | none =>
    rw [List.findSome?_eq_none_iff] at hfs
    rw [hfs a ha] at hb
    cases hb

lemma createOrder_of_findSome?_some (userId : Nat) {s : Store}
    {reqs : List TicketRequest} {e : BookingError}
    (hne : reqs.isEmpty = false)
    (hfs : reqs.findSome? (ticketValidate s) = some e) :
    createOrder s userId reqs = .error e := by
  simp [createOrder, hne, hfs]

lemma one_lt_length_of_two_mem {α : Type} {l : List α} {a b : α}
    (ha : a ∈ l) (hb : b ∈ l) (hab : a ≠ b) : 1 < l.length := by
  cases l with
  | nil => cases ha
  | cons x tl =>
    cases tl with
    | nil =>
      rw [List.mem_singleton] at ha hb
      exact absurd (ha.trans hb.symm) hab
    | cons y tl' =>
      simp only [List.length]
      omega

lemma insertTickets_conflict {oid : Nat} {base : List TicketRow} :
    ∀ {reqs : List TicketRequest} {acc : List TicketRow},
      (∃ r ∈ reqs, conflicts base (storedTicket oid r) = true) →
      (∀ t, conflicts base t = true → conflicts acc t = true) →
      insertTickets oid acc reqs = .error .seatAlreadyBooked
  | [], acc => by
      rintro ⟨r, hr, -⟩
      cases hr
  | r :: rest, acc => fun hex hmono => by
      unfold insertTickets
      by_cases hc : conflicts acc (storedTicket oid r) = true
      · rw [if_pos hc]
      · rw [if_neg hc]
        obtain ⟨r', hr', hc'⟩ := hex
        rcases List.mem_cons.1 hr' with rfl | htail
        · exact absurd (hmono _ hc') hc
        · refine insertTickets_conflict ⟨r', htail, hc'⟩ ?_
          intro t ht
          rw [conflicts_append]
          simp [hmono t ht]

lemma applyOp_preserves_uniqueSeats (s : Store) (op : Op)
    (h : uniqueSeats s.tickets) : uniqueSeats (applyOp s op).tickets := by
  cases op with
  | opCreateOrder userId reqs =>
    cases hc : createOrder s userId reqs with
    | error e => simpa [applyOp, hc] using h
    | ok s' =>
      have happ : applyOp s (.opCreateOrder userId reqs) = s' := by
        simp [applyOp, hc]
      rw [happ]
      obtain ⟨-, -, newTickets, hins, hs'⟩ := createOrder_ok hc
      subst hs'
      exact insertTickets_ok_nodup h hins
  | opOpenCheckout orderId sid surl =>
    cases hc : create_stripe_session s orderId sid surl with
    | error e => simpa [applyOp, hc] using h
    | ok s' =>
      have happ : applyOp s (.opOpenCheckout orderId sid surl) = s' := by
        simp [applyOp, hc]
      rw [happ, create_stripe_session_ok_tickets hc]
      exact h
  | opConfirmPayment sid =>
    cases hc : payment_success s sid with
    | error e => simpa [applyOp, hc] using h
    | ok s' =>
      have happ : applyOp s (.opConfirmPayment sid) = s' := by
        simp [applyOp, hc]
      rw [happ]
      obtain ⟨p, hp, hs'⟩ := payment_success_ok_parts hc
      subst hs'
      exact h

/-! ### C1: global (flight, row, seat) uniqueness -/

/-- C1: every reachable store satisfies P1 — no two committed tickets
share a (flight, row, seat) triple — and every operation (in particular
CreateOrder) preserves this invariant. -/
theorem ticket_uniqueness_invariant :
    (∀ s : Store, Reachable s → uniqueSeats s.tickets) ∧
    (∀ (s : Store) (op : Op),
        uniqueSeats s.tickets → uniqueSeats (applyOp s op).tickets) := by
  refine ⟨?_, applyOp_preserves_uniqueSeats⟩
  intro s h
  induction h with
  | init flights => simp [initStore, uniqueSeats]
  | step s' op' _ ih => exact applyOp_preserves_uniqueSeats s' op' ih

/-- Witness for C1: the invariant holds of a freshly initialised store,
and is preserved by a concrete CreateOrder against `wStore`. -/
theorem ticket_uniqueness_invariant_witness :
    uniqueSeats (initStore [wFlight]).tickets ∧
    uniqueSeats (applyOp wStore
      (.opCreateOrder 0 [{ flightId := 1, row := 2, seat := 'B' }])).tickets :=
  ⟨ticket_uniqueness_invariant.1 _ (Reachable.init [wFlight]),
   ticket_uniqueness_invariant.2 wStore _ (by decide)⟩

/-! ### C2: conflicting seat aborts the whole order -/

/-- C2: when a CreateOrder request passes input validation but some
requested ticket's (flight, row, seat) is already committed, the whole
transaction aborts with the seat-already-booked conflict and the store is
unchanged (no Order row, no Ticket row persists). -/
theorem conflict_aborts_order (s : Store) (userId : Nat)
    (reqs : List TicketRequest) (r : TicketRequest)
    (hr : r ∈ reqs)
    (hbooked : conflicts s.tickets (storedTicket s.nextOrderId r) = true)
    (htv : reqs.findSome? (ticketValidate s) = none)
    (hov : orderValidate reqs = none) :
    createOrder s userId reqs = .error .seatAlreadyBooked ∧
    applyOp s (.opCreateOrder userId reqs) = s := by
  have hne : reqs.isEmpty = false := isEmpty_false_of_mem hr
  have hmain : createOrder s userId reqs = .error .seatAlreadyBooked := by
    have hins : insertTickets s.nextOrderId s.tickets reqs =
        .error .seatAlreadyBooked :=
      insertTickets_conflict ⟨r, hr, hbooked⟩ (fun _ ht => ht)
    simp [createOrder, hne, htv, hov, hins]
  exact ⟨hmain, applyOp_createOrder_error hmain⟩

/-- Witness for C2: booking seat 1A of flight 1 against `wStore`, where
1A is already committed, fails with the conflict and changes nothing. -/
theorem conflict_aborts_order_witness :
    createOrder wStore 5 [{ flightId := 1, row := 1, seat := 'A' }] =
      .error .seatAlreadyBooked ∧
    applyOp wStore (.opCreateOrder 5
      [{ flightId := 1, row := 1, seat := 'A' }]) = wStore :=
  conflict_aborts_order wStore 5 _ _ (List.mem_singleton.2 rfl)
    (by decide) (by decide) (by decide)

/-! ### C3: seat/row bounds validation -/

/-- C3: a ticket request whose row is outside `1..rows` or whose seat is
outside `'A'..chr(64+seats_in_row)` makes CreateOrder fail with the
field-level seat-out-of-range `ValidationError` and persist nothing
(provided every requested flight resolves, so the failure is the bounds
check); a request inside both bounds passes the bounds validation. -/
theorem seat_bounds_enforced :
    (∀ (s : Store) (userId : Nat) (reqs : List TicketRequest)
        (r : TicketRequest) (f : Flight),
        r ∈ reqs →
        (∀ r' ∈ reqs, (findFlight s r'.flightId).isSome = true) →
        findFlight s r.flightId = some f →
        ¬ (('A' ≤ r.seat ∧
              r.seat ≤ Char.ofNat (f.aircraft.seats_in_row + 64).toNat) ∧
           (1 ≤ r.row ∧ r.row ≤ f.aircraft.rows)) →
        failsWithSeatOutOfRange (createOrder s userId reqs) ∧
        applyOp s (.opCreateOrder userId reqs) = s) ∧
    (∀ (seat : Char) (seats_in_row row num_rows : Int),
        ('A' ≤ seat ∧ seat ≤ Char.ofNat (seats_in_row + 64).toNat) ∧
        (1 ≤ row ∧ row ≤ num_rows) →
        validate_seat_row seat seats_in_row row num_rows = none) := by
  constructor
  · intro s userId reqs r f hr hall hf hout
    have hval : ticketValidate s r =
        some (.seatOutOfRange
          { seat_msg := "seat must be in range from A to " ++
              (Char.ofNat (f.aircraft.seats_in_row + 64).toNat).toString,
            row_msg := "row must be in range from 1 to " ++
              toString f.aircraft.rows }) := by
      unfold ticketValidate
      rw [hf]
      simp only [validate_seat_row]
      rw [if_neg hout]
    obtain ⟨e, hfs⟩ := findSome?_ne_none_of_mem hr hval
    obtain ⟨r'', hr'', hv''⟩ := List.exists_of_findSome?_eq_some hfs
    obtain ⟨d, rfl⟩ := ticketValidate_of_resolved (hall r'' hr'') hv''
    have hmain := createOrder_of_findSome?_some userId
      (isEmpty_false_of_mem hr) hfs
    refine ⟨?_, applyOp_createOrder_error hmain⟩
    rw [hmain]
    trivial
  · intro seat seats_in_row row num_rows hin
    simp only [validate_seat_row]
    rw [if_pos hin]

/-- Witness for C3: row 0 on `wFlight` (2 rows, seats A–C) is rejected
with the seat-out-of-range error and nothing persists; seat B row 1 is
inside bounds and passes. -/
theorem seat_bounds_enforced_witness :
    (failsWithSeatOutOfRange (createOrder wStore 0
        [{ flightId := 1, row := 0, seat := 'A' }]) ∧
      applyOp wStore (.opCreateOrder 0
        [{ flightId := 1, row := 0, seat := 'A' }]) = wStore) ∧
    validate_seat_row 'B' 3 1 2 = none :=
  ⟨seat_bounds_enforced.1 wStore 0 _ _ wFlight (List.mem_singleton.2 rfl)
      (by decide) (by decide) (by decide),
   seat_bounds_enforced.2 'B' 3 1 2 (by decide)⟩

/-! ### C4: mixed-flight orders are rejected -/

/-- C4: a CreateOrder request whose tickets reference two distinct flight
ids always fails with a `ValidationError` and persists nothing. -/
theorem mixed_flight_rejected (s : Store) (userId : Nat)
    (reqs : List TicketRequest) (r₁ r₂ : TicketRequest)
    (h1 : r₁ ∈ reqs) (h2 : r₂ ∈ reqs)
    (hne : r₁.flightId ≠ r₂.flightId) :
    failsWithValidation (createOrder s userId reqs) ∧
    applyOp s (.opCreateOrder userId reqs) = s := by
  have hnempty : reqs.isEmpty = false := isEmpty_false_of_mem h1
  cases hfs : reqs.findSome? (ticketValidate s) with
  | some e =>
    have hmain := createOrder_of_findSome?_some userId hnempty hfs
    refine ⟨?_, applyOp_createOrder_error hmain⟩
    rw [hmain]
    obtain ⟨r'', _, hv''⟩ := List.exists_of_findSome?_eq_some hfs
    exact ticketValidate_isValidation hv''
  | none =>
    have hlt : 1 < ((reqs.map (fun r => r.flightId)).dedup).length := by
      refine one_lt_length_of_two_mem
        (List.mem_dedup.2 (List.mem_map.2 ⟨r₁, h1, rfl⟩))
        (List.mem_dedup.2 (List.mem_map.2 ⟨r₂, h2, rfl⟩)) hne
    have hov : orderValidate reqs = some .mixedFlightOrder := by
      simp [orderValidate, hlt]
    have hmain : createOrder s userId reqs = .error .mixedFlightOrder := by
      simp [createOrder, hnempty, hfs, hov]
    refine ⟨?_, applyOp_createOrder_error hmain⟩
    rw [hmain]
    rfl

/-- Witness for C4: an order mixing flight 1 and (unknown) flight 2 fails
with a validation error and changes nothing. -/
theorem mixed_flight_rejected_witness :
    failsWithValidation (createOrder wStore 0
      [{ flightId := 1, row := 2, seat := 'B' },
       { flightId := 2, row := 2, seat := 'B' }]) ∧
    applyOp wStore (.opCreateOrder 0
      [{ flightId := 1, row := 2, seat := 'B' },
       { flightId := 2, row := 2, seat := 'B' }]) = wStore :=
  mixed_flight_rejected wStore 0 _
    { flightId := 1, row := 2, seat := 'B' }
    { flightId := 2, row := 2, seat := 'B' }
    (by simp) (by simp) (by decide)

/-! ### C5: derived seats-left -/

/-- C5: for every flight and every (quiescent) store, the `seats_left`
annotation equals the aircraft's capacity minus the number of committed
tickets referencing the flight. -/
theorem seats_left_consistency (s : Store) (f : Flight) :
    seats_left s f = capacity f.aircraft - (ticketCount s f.id : Int) := rfl

lemma getPayment_eq_ok_of_filter {s : Store} {sid : String} {p : PaymentRow}
    (hfil : s.payments.filter (fun q => q.session_id == sid) = [p]) :
    getPayment s sid = .ok p := by
  unfold getPayment
  rw [hfil]

lemma map_map_eq_map {α : Type} (f : α → α) (l : List α)
    (h : ∀ x, f (f x) = f x) : (l.map f).map f = l.map f := by
  rw [List.map_map]
  exact List.map_congr_left (fun a _ => h a)

lemma payment_success_paid {s s' : Store} {sid : String}
    (h : payment_success s sid = .ok s') :
    ∀ p ∈ s'.payments, p.session_id = sid →
      p.status = "paid" ∧
      ∀ o ∈ s'.orders, o.id = p.orderId → o.status = .paid := by
  obtain ⟨p₀, hget, hs'⟩ := payment_success_ok_parts h
  have hfil := getPayment_ok hget
  subst hs'
  intro q hq hqsid
  simp only [setOrderPaid] at hq
  obtain ⟨x, hx, hux⟩ := List.mem_map.1 hq
  have hxsid : x.session_id = sid := by
    have hqx : q.session_id = x.session_id := by
      rw [← hux]
      by_cases hid : (x.id == p₀.id) = true <;> simp [hid]
    rw [← hqx, hqsid]
  have hxp : x = p₀ := by
    have hxf : x ∈ s.payments.filter (fun q => q.session_id == sid) :=
      List.mem_filter.2 ⟨hx, by simp [hxsid]⟩
    rw [hfil] at hxf
    simpa using hxf
  subst hxp
  simp only [beq_self_eq_true, if_true] at hux
  subst hux
  refine ⟨rfl, ?_⟩
  intro o ho hoid
  simp only [setOrderPaid] at ho
  obtain ⟨y, hy, hvy⟩ := List.mem_map.1 ho
  by_cases hyid : (y.id == x.orderId) = true
  · rw [← hvy]
    simp [hyid]
  · exfalso
    rw [← hvy] at hoid
    rw [if_neg hyid] at hoid
    exact absurd (by simp [hoid]) hyid

/-! ### C7: the two confirmation writes are separate commits -/

/-- C7 counterexample: running ConfirmPayment on `wStore`, the state
durably committed after the first write (the payment save) has
Payment.status = Paid while Order.status is still Not-Paid, so the claim
that no such state is ever durably observable is false of the code (the
two saves are not wrapped in a transaction). -/
theorem confirm_payment_intermediate_state :
    payment_success_afterFirstWrite wStore "sess1" = .ok wStoreMid ∧
    wStoreMid.payments.map PaymentRow.status = ["paid"] ∧
    wStoreMid.orders.map OrderRow.status = [OrderStatus.notPaid] ∧
    payment_success wStore "sess1" = .ok wStorePaid := by decide

/-- C7 (amended): a completed ConfirmPayment leaves the matched payment
and its owning order Paid, but the two updates are separate commits: the
store after the first commit has the final payments and the original
(possibly unpaid) orders. -/
theorem confirm_payment_two_commits (s s' : Store) (sid : String)
    (h : payment_success s sid = .ok s') :
    (∀ p ∈ s'.payments, p.session_id = sid →
        p.status = "paid" ∧
        ∀ o ∈ s'.orders, o.id = p.orderId → o.status = .paid) ∧
    payment_success_afterFirstWrite s sid =
      .ok { s with payments := s'.payments } := by
  refine ⟨payment_success_paid h, ?_⟩
  obtain ⟨p₀, hget, hs'⟩ := payment_success_ok_parts h
  subst hs'
  unfold payment_success_afterFirstWrite
  rw [hget]
  simp only [Bind.bind, Except.bind, paymentSerializerSave,
    payment_status_choices]
  rw [if_pos (by simp)]
  rfl

/-- Witness for C7's amended claim at `wStore`. -/
theorem confirm_payment_two_commits_witness :
    payment_success_afterFirstWrite wStore "sess1" =
      .ok { wStore with payments := wStorePaid.payments } :=
  (confirm_payment_two_commits wStore wStorePaid "sess1" (by decide)).2

/-! ### C8: ConfirmPayment is idempotent -/

/-- C8: once ConfirmPayment has succeeded, repeating it with the same
session id succeeds without error and leaves the store unchanged, with
the payment and its owning order still Paid. -/
theorem confirm_payment_idempotent (s s' : Store) (sid : String)
    (h : payment_success s sid = .ok s') :
    payment_success s' sid = .ok s' ∧
    ∀ p ∈ s'.payments, p.session_id = sid →
      p.status = "paid" ∧
      ∀ o ∈ s'.orders, o.id = p.orderId → o.status = .paid := by
  refine ⟨?_, payment_success_paid h⟩
  obtain ⟨p₀, hget, hs'⟩ := payment_success_ok_parts h
  have hfil := getPayment_ok hget
  subst hs'
  have hfil' : ((s.payments.map (fun q =>
      if q.id == p₀.id then { q with status := "paid" } else q)).filter
        (fun q => q.session_id == sid)) =
      [{ p₀ with status := "paid" }] := by
    rw [List.filter_map]
    have hcongr : s.payments.filter
        ((fun q => q.session_id == sid) ∘ (fun q =>
          if q.id == p₀.id then { q with status := "paid" } else q)) =
        s.payments.filter (fun q => q.session_id == sid) := by
      apply List.filter_congr
      intro a _
      by_cases hid : a.id = p₀.id <;> simp [hid]
    rw [hcongr, hfil]
    simp
  have hget' : getPayment (setOrderPaid
      { s with payments := s.payments.map (fun q =>
          if q.id == p₀.id then { q with status := "paid" } else q) }
      p₀.orderId) sid = .ok { p₀ with status := "paid" } :=
    getPayment_eq_ok_of_filter hfil'
  unfold payment_success
  rw [hget']
  simp only [Bind.bind, Except.bind, paymentSerializerSave,
    payment_status_choices]
  rw [if_pos (by simp)]
  refine congrArg Except.ok ?_
  dsimp only [setOrderPaid]
  congr 1
  · exact map_map_eq_map _ _ (fun o => by
      by_cases hid : o.id = p₀.orderId <;> simp [hid])
  · exact map_map_eq_map _ _ (fun q => by
      by_cases hid : q.id = p₀.id <;> simp [hid])

/-- Witness for C8: re-confirming session `"sess1"` on the already-paid
`wStorePaid` succeeds and changes nothing. -/
theorem confirm_payment_idempotent_witness :
    payment_success wStorePaid "sess1" = .ok wStorePaid :=
  (confirm_payment_idempotent wStore wStorePaid "sess1" (by decide)).1

/-! ### C6: OpenCheckout creates one pending payment -/

/-- C6: for an order with at least one ticket (whose flight resolves),
OpenCheckout succeeds and appends exactly one Payment row: status
`"PENDING"`, the provider's session id and url, and stored amount
`route.distance * ticket_count * unit_rate`. -/
theorem open_checkout_creates_payment (s : Store) (orderId : Nat)
    (sid surl : String) (t : TicketRow) (rest : List TicketRow) (f : Flight)
    (ht : orderTickets s orderId = t :: rest)
    (hf : findFlight s t.flightId = some f) :
    create_stripe_session s orderId sid surl = .ok
      { s with
        payments := s.payments ++
          [{ id := s.nextPaymentId, status := "PENDING", orderId := orderId,
             session_url := surl, session_id := sid,
             amount := (f.route.distance : ℚ) *
               ((orderTickets s orderId).length : ℚ) * unit_rate }],
        nextPaymentId := s.nextPaymentId + 1 } := by
  simp only [create_stripe_session, ht, hf, create_payment, sessionCreate,
    Except.ok.injEq, Store.mk.injEq, List.append_cancel_left_eq,
    List.cons.injEq, PaymentRow.mk.injEq, and_true, true_and]
  unfold unit_rate
  push_cast
  ring

/-- Witness for C6 against `wStore`: order 0 has one ticket on `wFlight`
(distance 100), so the payment is created pending with the provider's
session data and the rated amount. -/
theorem open_checkout_creates_payment_witness :
    create_stripe_session wStore 0 "sessX" "urlX" = .ok
      { wStore with
        payments := wStore.payments ++
          [{ id := wStore.nextPaymentId, status := "PENDING", orderId := 0,
             session_url := "urlX", session_id := "sessX",
             amount := (wFlight.route.distance : ℚ) *
               ((orderTickets wStore 0).length : ℚ) * unit_rate }],
        nextPaymentId := wStore.nextPaymentId + 1 } :=
  open_checkout_creates_payment wStore 0 "sessX" "urlX"
    { row := 1, seat := 'A', flightId := 1, orderId := 0 } [] wFlight
    (by decide) (by decide)

/-! ### C9: unknown payment session -/

/-- C9: when no Payment row carries the requested session id,
ConfirmPayment fails with the lookup-miss error (`DoesNotExist`, the
spec's `NotFoundError`) and changes no Payment or Order state. -/
theorem confirm_payment_not_found (s : Store) (sid : String)
    (h : ∀ p ∈ s.payments, p.session_id ≠ sid) :
    payment_success s sid = .error .doesNotExist ∧
    applyOp s (.opConfirmPayment sid) = s := by
  have hfil : s.payments.filter (fun q => q.session_id == sid) = [] := by
    rw [List.filter_eq_nil_iff]
    intro p hp
    simp [h p hp]
  have hget : getPayment s sid = .error .doesNotExist := by
    unfold getPayment
    rw [hfil]
  have hmain : payment_success s sid = .error .doesNotExist := by
    unfold payment_success
    rw [hget]
    rfl
  exact ⟨hmain, by simp [applyOp, hmain]⟩

/-- Witness for C9: no payment of `wStore` carries session `"missing"`. -/
theorem confirm_payment_not_found_witness :
    payment_success wStore "missing" = .error .doesNotExist ∧
    applyOp wStore (.opConfirmPayment "missing") = wStore :=
  confirm_payment_not_found wStore "missing" (by decide)

/-! ### C10: lowercase seat letters are rejected -/

lemma lowercase_validate_isSome (row num_rows : Int) {seat : Char}
    {seats_in_row : Int}
    (h1 : 1 ≤ seats_in_row) (h2 : seats_in_row ≤ 26)
    (ha : 'a' ≤ seat) :
    (validate_seat_row seat seats_in_row row num_rows).isSome = true := by
  have hlt : Char.ofNat (seats_in_row + 64).toNat < 'a' := by
    interval_cases seats_in_row <;> decide
  have hcond : ¬ (('A' ≤ seat ∧
      seat ≤ Char.ofNat (seats_in_row + 64).toNat) ∧
      (1 ≤ row ∧ row ≤ num_rows)) := by
    rintro ⟨⟨-, hle⟩, -⟩
    exact absurd (le_trans ha hle) (not_le.2 hlt)
  simp only [validate_seat_row]
  rw [if_neg hcond]
  rfl

/-- C10: seat validation is case-sensitive even though stored seats are
uppercased by `get_prep_value`: on an aircraft with
`1 ≤ seats_in_row ≤ 26` every lowercase seat letter fails the bounds
check, and a CreateOrder request holding one is always rejected with
nothing persisted — so no lowercase seat is ever accepted and stored as
its uppercase form. -/
theorem lowercase_seat_rejected :
    (∀ (seat : Char) (seats_in_row row num_rows : Int),
        1 ≤ seats_in_row → seats_in_row ≤ 26 →
        'a' ≤ seat → seat ≤ 'z' →
        (validate_seat_row seat seats_in_row row num_rows).isSome = true) ∧
    (∀ (s : Store) (userId : Nat) (reqs : List TicketRequest)
        (r : TicketRequest) (f : Flight),
        r ∈ reqs → findFlight s r.flightId = some f →
        1 ≤ f.aircraft.seats_in_row → f.aircraft.seats_in_row ≤ 26 →
        'a' ≤ r.seat → r.seat ≤ 'z' →
        opFails (createOrder s userId reqs) ∧
        applyOp s (.opCreateOrder userId reqs) = s) := by
  constructor
  · intro seat seats_in_row row num_rows h1 h2 ha _hz
    exact lowercase_validate_isSome row num_rows h1 h2 ha
  · intro s userId reqs r f hr hf h1 h2 ha _hz
    have hsome := lowercase_validate_isSome r.row f.aircraft.rows h1 h2 ha
    have hval : ∃ e₀, ticketValidate s r = some e₀ := by
      unfold ticketValidate
      simp only [hf]
      cases hv : validate_seat_row r.seat f.aircraft.seats_in_row r.row
          f.aircraft.rows with
      | none =>
        rw [hv] at hsome
        simp at hsome
      | some d => exact ⟨_, rfl⟩
    obtain ⟨e₀, hval⟩ := hval
    obtain ⟨e, hfs⟩ := findSome?_ne_none_of_mem hr hval
    have hmain := createOrder_of_findSome?_some userId
      (isEmpty_false_of_mem hr) hfs
    refine ⟨?_, applyOp_createOrder_error hmain⟩
    rw [hmain]
    trivial

/-- Witness for C10: lowercase `'a'` fails the bounds check on a 3-seat
row, and booking seat `'b'` on `wFlight` is rejected with nothing
persisted. -/
theorem lowercase_seat_rejected_witness :
    (validate_seat_row 'a' 3 1 2).isSome = true ∧
    (opFails (createOrder wStore 0
        [{ flightId := 1, row := 1, seat := 'b' }]) ∧
      applyOp wStore (.opCreateOrder 0
        [{ flightId := 1, row := 1, seat := 'b' }]) = wStore) :=
  ⟨lowercase_seat_rejected.1 'a' 3 1 2 (by decide) (by decide) (by decide)
      (by decide),
   lowercase_seat_rejected.2 wStore 0
      [{ flightId := 1, row := 1, seat := 'b' }]
      { flightId := 1, row := 1, seat := 'b' } wFlight
      (List.mem_singleton.2 rfl) (by decide) (by decide) (by decide)
      (by decide) (by decide)⟩

end AirportApi
